import Mathlib

/-!
Shallow embedding of `src/app_web.py` (FinGraphRAG), a single-file Streamlit
question-answering front-end over SEC 10-K filings.

Modelling choices, all taken from the source:

* The whole Python script re-executes on every user input event.  One
  execution of the script body is the function `runScript`, taking the
  current widget contents (`api_key`, `question`), the process-wide state
  that survives across executions (`AppState`), and an oracle `World`
  describing what the external collaborators (Neo4j vector store
  construction, QA-chain construction, chain invocation) do when called.
* Python string truthiness (`if api_key:`, `if question:`, `if answer:`)
  is `≠ ""`; `None` is `Option.none`.
* External library handles (`Neo4jVector`, `RetrievalQAWithSourcesChain`)
  are opaque references; we model reference identity by allocating a fresh
  natural number from `AppState.counter` each time a constructor body
  actually runs, so "identical handle" is equality of these ids.
* `@st.cache_resource` memoizes a function's return value by its
  arguments; per Streamlit's documented semantics, parameters whose name
  begins with an underscore are excluded from the cache key.  Hence
  `initialize_vector_store` is cached by `api_key`, and
  `initialize_qa_chain(_vector_store, api_key)` is cached by `api_key`
  alone.  A cached function that catches its own exception and returns
  `None` has that `None` cached like any other value, and the static UI
  elements (`st.error`) emitted during the cached execution are replayed
  on cache hits.  The cache is an association list (most recent binding
  first), matching a dict keyed by the hashed arguments.
* `st.stop()` aborts the script run: nothing after it is rendered.
* Rendered UI output is the list of `Event`s emitted during one run, in
  order.  Static display texts that no claim inspects (title, intro
  markdown, example questions, footer) are distinct nullary events;
  `st.warning`/`st.error` texts and the answer rendering are carried
  verbatim since the claims talk about them.
* `st.write(textwrap.fill(answer, width=80))` is the event
  `Event.answerWrapped answer 80`: the word-wrapping itself is Python's
  standard library (an external collaborator); the event records that
  exactly this answer string is rendered word-wrapped to width 80.
* Module-level configuration (`os.getenv` after `load_dotenv()`) is the
  structure `Env`; Python's `os.getenv` returns `None` for an absent
  variable and `x or "neo4j"` falls back on falsy (absent or empty)
  values.
-/

namespace FinGraphRAG

/-- Process environment as read at module load: the four `os.getenv` reads
at the top of `app_web.py` (`None` when the variable is absent). -/
structure Env where
  neo4j_uri : Option String
  neo4j_username : Option String
  neo4j_password : Option String
  neo4j_database : Option String
deriving DecidableEq, Repr

/-- Python `value or default` on an `os.getenv` result: the default is used
when the variable is absent (`None`) or falsy (the empty string). -/
def getenvOrDefault (v : Option String) (dflt : String) : String :=
  match v with
  | none => dflt
  | some s => if s = "" then dflt else s

/-- Line 16: `NEO4J_DATABASE = os.getenv("NEO4J_DATABASE") or "neo4j"`. -/
def neo4jDatabaseConfig (env : Env) : String :=
  getenvOrDefault env.neo4j_database "neo4j"

/-- Line 19: `VECTOR_INDEX_NAME = 'form_10k_chunks'`. -/
def VECTOR_INDEX_NAME : String := "form_10k_chunks"

/-- Line 20: `VECTOR_NODE_LABEL = 'TextChunk'`. -/
def VECTOR_NODE_LABEL : String := "TextChunk"

/-- Line 21: `VECTOR_SOURCE_PROPERTY = 'text'`. -/
def VECTOR_SOURCE_PROPERTY : String := "text"

/-- Line 22: `VECTOR_EMBEDDING_PROPERTY = 'textEmbedding'`. -/
def VECTOR_EMBEDDING_PROPERTY : String := "textEmbedding"

/-- Argument of `OpenAIEmbeddings(api_key=api_key)` (line 33). -/
structure OpenAIEmbeddingsArgs where
  api_key : String
deriving DecidableEq, Repr

/-- The keyword arguments passed to `Neo4jVector.from_existing_graph` in
`initialize_vector_store` (lines 32-41), exactly as the source passes
them.  Note the call passes `url`, `username` and `password` but no
database argument. -/
structure Neo4jVectorFromExistingGraphArgs where
  embedding : OpenAIEmbeddingsArgs
  url : Option String
  username : Option String
  password : Option String
  index_name : String
  node_label : String
  text_node_properties : List String
  embedding_node_property : String
deriving DecidableEq, Repr

/-- The argument record `initialize_vector_store` builds for
`Neo4jVector.from_existing_graph` from the environment and the
user-supplied API key (lines 32-41). -/
def fromExistingGraphArgs (env : Env) (api_key : String) :
    Neo4jVectorFromExistingGraphArgs :=
  { embedding := { api_key := api_key }
    url := env.neo4j_uri
    username := env.neo4j_username
    password := env.neo4j_password
    index_name := VECTOR_INDEX_NAME
    node_label := VECTOR_NODE_LABEL
    text_node_properties := [VECTOR_SOURCE_PROPERTY]
    embedding_node_property := VECTOR_EMBEDDING_PROPERTY }

/-- One UI element emitted during a script run, in render order. -/
inductive Event where
  /-- `st.title(...)` (line 78). -/
  | titleDisplay
  /-- the introductory `st.markdown(...)` block (lines 79-82). -/
  | introText
  /-- the masked API-key `st.text_input` (lines 85-88). -/
  | apiKeyInput
  /-- `st.warning(text)` (line 124). -/
  | warning (text : String)
  /-- `st.error(text)` (lines 44, 59, 68). -/
  | error (text : String)
  /-- the question `st.text_input` (lines 103-104). -/
  | questionInput
  /-- the example-questions `st.markdown` block (lines 107-114). -/
  | exampleQuestions
  /-- `st.spinner(...)` shown while the answer is computed (line 118). -/
  | spinner
  /-- `st.markdown("### Answer:")` (line 121). -/
  | answerHeading
  /-- `st.write(textwrap.fill(answer, width=80))` (line 122): the answer
  string rendered word-wrapped to the given width. -/
  | answerWrapped (answer : String) (width : Nat)
  /-- the footer markdown (lines 127-128). -/
  | footerRule
deriving DecidableEq, Repr

/-- An invocation of one of the three Python operations during a run. -/
inductive Call where
  | initVectorStore (api_key : String)
  | initQAChain (vector_store : Nat) (api_key : String)
  | getAnswer (question : String) (qa_chain : Nat)
deriving DecidableEq, Repr

/-- What one external constructor/invocation does when its body actually
runs: `Except.error msg` models the call raising an exception whose
`str(e)` is `msg`. -/
structure World where
  /-- `Neo4jVector.from_existing_graph(...)` outcome, per API key. -/
  fromExistingGraph : String → Except String Unit
  /-- `RetrievalQAWithSourcesChain.from_chain_type(...)` outcome, per
  (vector-store handle, API key). -/
  fromChainType : Nat → String → Except String Unit
  /-- `qa_chain(dict, return_only_outputs=True)` followed by the
  `response["answer"]` lookup, per (question, chain handle): raises, or
  yields the answer string. -/
  chainInvoke : String → Nat → Except String String

/-- One `st.cache_resource` cache entry: the cached return value (a handle
id, or `none` for a cached `None` sentinel) together with the static
elements emitted during the cached execution, replayed on hits. -/
structure CacheEntry where
  value : Option Nat
  replay : List Event
deriving DecidableEq, Repr

/-- Association-list lookup for the memoization caches (most recent
binding first). -/
def cacheLookup (c : List (String × CacheEntry)) (k : String) :
    Option CacheEntry :=
  match c with
  | [] => none
  | (k', e) :: rest => if k' = k then some e else cacheLookup rest k

/-- Process-wide state surviving across script executions: the fresh-handle
allocator, the two `st.cache_resource` caches, and the one session-state
slot `st.session_state.openai_api_key` (initialized to `""` at session
start, lines 25-26). -/
structure AppState where
  counter : Nat
  vsCache : List (String × CacheEntry)
  qaCache : List (String × CacheEntry)
  openai_api_key : String
deriving DecidableEq, Repr

/-- The state at session start: empty caches, no handles allocated, and
`st.session_state.openai_api_key = ""` (lines 25-26). -/
def initialState : AppState := ⟨0, [], [], ""⟩

/-- `initialize_vector_store(api_key)` (lines 29-45) under
`@st.cache_resource`: on a cache hit the cached value is returned and the
cached static elements replayed; on a miss the body runs, either
constructing a fresh handle or catching the exception, emitting
`st.error("Error initializing vector store: " + str(e))` and returning
`None` (which is cached too). -/
def runInitVectorStore (w : World) (s : AppState) (api_key : String) :
    Option Nat × AppState × List Event :=
  match cacheLookup s.vsCache api_key with
  | some e => (e.value, s, e.replay)
  | none =>
    match w.fromExistingGraph api_key with
    | .ok _ =>
        (some s.counter,
         { s with
            counter := s.counter + 1
            vsCache := (api_key, ⟨some s.counter, []⟩) :: s.vsCache },
         [])
    | .error msg =>
        let ev := [Event.error ("Error initializing vector store: " ++ msg)]
        (none, { s with vsCache := (api_key, ⟨none, ev⟩) :: s.vsCache }, ev)

/-- `initialize_qa_chain(_vector_store, api_key)` (lines 48-60) under
`@st.cache_resource`: the leading underscore excludes `_vector_store`
from the cache key, so the result is memoized by `api_key` alone; on a
miss the body runs against the actually passed store handle, either
constructing a fresh chain or catching the exception, emitting
`st.error("Error initializing QA chain: " + str(e))` and returning
`None`. -/
def runInitQAChain (w : World) (s : AppState) (vector_store : Nat)
    (api_key : String) : Option Nat × AppState × List Event :=
  match cacheLookup s.qaCache api_key with
  | some e => (e.value, s, e.replay)
  | none =>
    match w.fromChainType vector_store api_key with
    | .ok _ =>
        (some s.counter,
         { s with
            counter := s.counter + 1
            qaCache := (api_key, ⟨some s.counter, []⟩) :: s.qaCache },
         [])
    | .error msg =>
        let ev := [Event.error ("Error initializing QA chain: " ++ msg)]
        (none, { s with qaCache := (api_key, ⟨none, ev⟩) :: s.qaCache }, ev)

/-- `get_answer(question, qa_chain)` (lines 63-69), not cached: invokes the
chain; on an exception emits
`st.error("Error getting answer: " + str(e))` and returns `None`. -/
def runGetAnswer (w : World) (question : String) (qa_chain : Nat) :
    Option String × List Event :=
  match w.chainInvoke question qa_chain with
  | .ok a => (some a, [])
  | .error msg => (none, [Event.error ("Error getting answer: " ++ msg)])

/-- Result of one execution of the script body: the UI elements rendered,
the process-wide state afterwards, and the operations invoked. -/
structure RunResult where
  events : List Event
  state : AppState
  calls : List Call
deriving DecidableEq, Repr

/-- One execution of the script body of `app_web.py` (lines 72-128), given
the current contents of the API-key field and of the question field.
Follows the source line by line: page chrome, the key input, then
`if api_key:` (Python truthiness, i.e. the field is non-empty) stores the
key in session state and initializes the vector store and QA chain with
`st.stop()` after a `None` result; once both handles exist the question
input and examples are rendered, and `if question:` runs `get_answer`
under a spinner and renders the answer only `if answer:` (non-`None` and
non-empty); otherwise the `else` branch shows the warning.  The footer is
rendered unless `st.stop()` aborted the run. -/
def runScript (w : World) (s0 : AppState) (api_key : String)
    (question : String) : RunResult :=
  let header := [Event.titleDisplay, Event.introText, Event.apiKeyInput]
  if api_key = "" then
    ⟨header ++ [Event.warning "Please enter your OpenAI API key to continue.",
      Event.footerRule], s0, []⟩
  else
    let s1 := { s0 with openai_api_key := api_key }
    let vsr := runInitVectorStore w s1 api_key
    match vsr.1 with
    | none => ⟨header ++ vsr.2.2, vsr.2.1, [Call.initVectorStore api_key]⟩
    | some vector_store =>
      let qar := runInitQAChain w vsr.2.1 vector_store api_key
      match qar.1 with
      | none =>
          ⟨header ++ vsr.2.2 ++ qar.2.2, qar.2.1,
           [Call.initVectorStore api_key,
            Call.initQAChain vector_store api_key]⟩
      | some qa_chain =>
        let mid := [Event.questionInput, Event.exampleQuestions]
        if question = "" then
          ⟨header ++ vsr.2.2 ++ qar.2.2 ++ mid ++ [Event.footerRule],
           qar.2.1,
           [Call.initVectorStore api_key,
            Call.initQAChain vector_store api_key]⟩
        else
          let ans := runGetAnswer w question qa_chain
          let answerEvents :=
            match ans.1 with
            | some a =>
                if a = "" then []
                else [Event.answerHeading, Event.answerWrapped a 80]
            | none => []
          ⟨header ++ vsr.2.2 ++ qar.2.2 ++ mid ++ [Event.spinner]
             ++ ans.2 ++ answerEvents ++ [Event.footerRule],
           qar.2.1,
           [Call.initVectorStore api_key,
            Call.initQAChain vector_store api_key,
            Call.getAnswer question qa_chain]⟩

/-- Well-formedness of the process state: every handle id stored in either
cache was allocated below the current counter (true of every reachable
state; in particular of `initialState`). -/
def WF (s : AppState) : Prop :=
  (∀ k e h, cacheLookup s.vsCache k = some e → e.value = some h →
    h < s.counter) ∧
  (∀ k e h, cacheLookup s.qaCache k = some e → e.value = some h →
    h < s.counter)

/-- A world in which every external call succeeds and every answer is a
fixed non-empty string; used for concrete evaluations. -/
def wOK : World :=
  ⟨fun _ => .ok (), fun _ _ => .ok (), fun _ _ => .ok "An answer."⟩

/-- Is the event a `st.warning`? -/
def isWarningEvent : Event → Bool
  | .warning _ => true
  | _ => false

/-- Is the event a `st.error`? -/
def isErrorEvent : Event → Bool
  | .error _ => true
  | _ => false

/-- Is the event part of the answer display (heading or wrapped text)? -/
def isAnswerEvent : Event → Bool
  | .answerHeading => true
  | .answerWrapped _ _ => true
  | _ => false

/-- An environment with all four variables set, database `"dbA"`. -/
def envA : Env := ⟨some "bolt", some "neo4j_user", some "pw", some "dbA"⟩

/-- Same as `envA` except the database variable is `"dbB"`. -/
def envB : Env := ⟨some "bolt", some "neo4j_user", some "pw", some "dbB"⟩

/-- Same as `envA` except the database variable is absent. -/
def envNoDb : Env := ⟨some "bolt", some "neo4j_user", some "pw", none⟩

/-- A world whose vector-store construction raises with message `"boom"`. -/
def wVsFail : World :=
  ⟨fun _ => .error "boom", fun _ _ => .ok (), fun _ _ => .ok "An answer."⟩

/-- A world whose QA-chain construction raises with message `"boom"`. -/
def wQaFail : World :=
  ⟨fun _ => .ok (), fun _ _ => .error "boom", fun _ _ => .ok "An answer."⟩

/-- A world whose chain invocation raises with message `"boom"`. -/
def wAnsFail : World :=
  ⟨fun _ => .ok (), fun _ _ => .ok (), fun _ _ => .error "boom"⟩

/-- A world where everything succeeds and the chain answer is `""`. -/
def wEmptyAns : World :=
  ⟨fun _ => .ok (), fun _ _ => .ok (), fun _ _ => .ok ""⟩

/-- A process state holding two distinct cached vector-store handles (for
two API keys) and an empty QA-chain cache. -/
def twoStoreState : AppState :=
  ⟨2, [("k1", ⟨some 0, []⟩), ("k2", ⟨some 1, []⟩)], [], ""⟩

/-- `initialState` is well-formed: its caches are empty. -/
theorem wf_initialState : WF initialState := by
  constructor <;>
    · intro k e h hc
      simp [cacheLookup, initialState] at hc

/-- The memoized operations do not touch
`st.session_state.openai_api_key`. -/
theorem runInitVectorStore_openai_api_key (w : World) (s : AppState)
    (k : String) :
    (runInitVectorStore w s k).2.1.openai_api_key = s.openai_api_key := by
  cases hcl : cacheLookup s.vsCache k with
  | some e => simp [runInitVectorStore, hcl]
  | none =>
    cases hw : w.fromExistingGraph k with
    | ok u => simp [runInitVectorStore, hcl, hw]
    | error m => simp [runInitVectorStore, hcl, hw]

/-- `runInitQAChain` does not touch `st.session_state.openai_api_key`. -/
theorem runInitQAChain_openai_api_key (w : World) (s : AppState)
    (v : Nat) (k : String) :
    (runInitQAChain w s v k).2.1.openai_api_key = s.openai_api_key := by
  cases hcl : cacheLookup s.qaCache k with
  | some e => simp [runInitQAChain, hcl]
  | none =>
    cases hw : w.fromChainType v k with
    | ok u => simp [runInitQAChain, hcl, hw]
    | error m => simp [runInitQAChain, hcl, hw]

/-- C1 (counterexample): the guard on line 90 is Python truthiness of the
raw field content, so the whitespace-only key `" "` passes it: the run
invokes `initialize_vector_store " "` and shows no warning, contradicting
the claim that whitespace-only keys cause no initialization call and a
warning. -/
theorem whitespace_key_counterexample :
    (Call.initVectorStore " " ∈ (runScript wOK initialState " " "").calls)
    ∧ (runScript wOK initialState " " "").events.any isWarningEvent
        = false := by
  decide

/-- C1 (amended): for the empty API key string, no operation is invoked
(in particular neither `initialize_vector_store` nor
`initialize_qa_chain`, so no network initialization call is attempted)
and the warning is shown; whitespace-only keys are treated as present. -/
theorem empty_key_no_init_and_warning (w : World) (s : AppState)
    (q : String) :
    (runScript w s "" q).calls = []
    ∧ Event.warning "Please enter your OpenAI API key to continue."
        ∈ (runScript w s "" q).events := by
  simp [runScript]

/-- C2 (counterexample): two `initialize_qa_chain` calls with the same API
key `"k1"` but distinct vector-store handles `0` and `1` return the SAME
chain handle (`some 2`), not distinct ones: the underscore-prefixed
`_vector_store` parameter is excluded from the `st.cache_resource` key,
so the second call is a cache hit. -/
theorem qa_chain_distinct_stores_counterexample :
    ((runInitQAChain wOK
        (runInitQAChain wOK twoStoreState 0 "k1").2.1 1 "k1").1
      = (runInitQAChain wOK twoStoreState 0 "k1").1)
    ∧ (runInitQAChain wOK twoStoreState 0 "k1").1 = some 2 := by
  decide

/-- C2 (amended): `initialize_qa_chain` is memoized by API key alone (the
underscore-prefixed vector-store parameter is excluded from the cache
key): after a call with key `k` and store `v1`, a second call with the
same key and ANY store `v2` returns the identical cached handle; for a
previously unseen key the constructor runs against the passed store and
on success yields a new handle distinct from every cached one. -/
theorem initialize_qa_chain_memoized_by_key (w : World) (s : AppState)
    (k : String) (v1 v2 : Nat) (hwf : WF s) :
    ((runInitQAChain w (runInitQAChain w s v1 k).2.1 v2 k).1
        = (runInitQAChain w s v1 k).1)
    ∧ (cacheLookup s.qaCache k = none → w.fromChainType v1 k = .ok () →
        (runInitQAChain w s v1 k).1 = some s.counter
        ∧ ∀ k' e h', cacheLookup s.qaCache k' = some e →
            e.value = some h' → s.counter ≠ h') := by
  obtain ⟨-, hqa⟩ := hwf
  constructor
  · cases hcl : cacheLookup s.qaCache k with
    | some e => simp [runInitQAChain, hcl]
    | none =>
      cases hw : w.fromChainType v1 k with
      | ok u => simp [runInitQAChain, hcl, hw, cacheLookup]
      | error m => simp [runInitQAChain, hcl, hw, cacheLookup]
  · intro hcl hw
    refine ⟨by simp [runInitQAChain, hcl, hw], ?_⟩
    intro k' e h' hc hv
    have := hqa k' e h' hc hv
    omega

/-- C2 (witness): the amended memoization theorem instantiated at a
concrete world, the session-start state, a concrete key and two distinct
store handles. -/
theorem initialize_qa_chain_memoized_by_key_witness :
    ((runInitQAChain wOK
        (runInitQAChain wOK initialState 5 "sk").2.1 7 "sk").1
      = (runInitQAChain wOK initialState 5 "sk").1)
    ∧ (cacheLookup initialState.qaCache "sk" = none →
        wOK.fromChainType 5 "sk" = .ok () →
        (runInitQAChain wOK initialState 5 "sk").1
            = some initialState.counter
        ∧ ∀ k' e h', cacheLookup initialState.qaCache k' = some e →
            e.value = some h' → initialState.counter ≠ h') :=
  initialize_qa_chain_memoized_by_key wOK initialState "sk" 5 7
    wf_initialState

/-- C3: `initialize_vector_store` is memoized by API key: a second
consecutive call with the same key returns the identical cached handle,
and a call with a key different from all previously seen keys runs the
constructor, which on success yields a new handle distinct from every
cached one. -/
theorem initialize_vector_store_memoized (w : World) (s : AppState)
    (k : String) (hwf : WF s) :
    ((runInitVectorStore w (runInitVectorStore w s k).2.1 k).1
        = (runInitVectorStore w s k).1)
    ∧ (cacheLookup s.vsCache k = none → w.fromExistingGraph k = .ok () →
        (runInitVectorStore w s k).1 = some s.counter
        ∧ ∀ k' e h', cacheLookup s.vsCache k' = some e →
            e.value = some h' → s.counter ≠ h') := by
  obtain ⟨hvs, -⟩ := hwf
  constructor
  · cases hcl : cacheLookup s.vsCache k with
    | some e => simp [runInitVectorStore, hcl]
    | none =>
      cases hw : w.fromExistingGraph k with
      | ok u => simp [runInitVectorStore, hcl, hw, cacheLookup]
      | error m => simp [runInitVectorStore, hcl, hw, cacheLookup]
  · intro hcl hw
    refine ⟨by simp [runInitVectorStore, hcl, hw], ?_⟩
    intro k' e h' hc hv
    have := hvs k' e h' hc hv
    omega

/-- C3 (witness): the memoization theorem instantiated at a concrete
world, the session-start state and a concrete key. -/
theorem initialize_vector_store_memoized_witness :
    ((runInitVectorStore wOK
        (runInitVectorStore wOK initialState "sk").2.1 "sk").1
      = (runInitVectorStore wOK initialState "sk").1)
    ∧ (cacheLookup initialState.vsCache "sk" = none →
        wOK.fromExistingGraph "sk" = .ok () →
        (runInitVectorStore wOK initialState "sk").1
            = some initialState.counter
        ∧ ∀ k' e h', cacheLookup initialState.vsCache k' = some e →
            e.value = some h' → initialState.counter ≠ h') :=
  initialize_vector_store_memoized wOK initialState "sk" wf_initialState

/-- C4: while the key field is empty, none of the three operations is
invoked in a script run (in particular no network call to the vector
index or the chat model is made before a non-empty key is present). -/
theorem no_calls_while_key_field_empty (w : World) (s : AppState)
    (q : String) :
    (runScript w s "" q).calls = [] := by
  simp [runScript]

/-- C5: for each of the three operations, when the underlying external
call raises with message `msg`, the exception is caught at the point of
the call: the operation emits an inline `st.error` whose text is a fixed
prefix followed by `msg` (hence contains the exception message) and
returns the `None` sentinel; at script level the interaction halts: after
a retrieval-handle or chain-construction failure the run ends at the
error (`st.stop`), so the question field is never rendered, and after a
chain-invocation failure no answer is rendered.  Every run is a total
value of the model, so the process does not crash. -/
theorem exceptions_caught_and_interaction_halts (k q msg : String)
    (hk : k ≠ "") (hq : q ≠ "") :
    (∀ (w : World) (s : AppState), cacheLookup s.vsCache k = none →
        w.fromExistingGraph k = .error msg →
        (runInitVectorStore w s k).1 = none
        ∧ (runInitVectorStore w s k).2.2
            = [Event.error ("Error initializing vector store: " ++ msg)])
    ∧ (∀ (w : World) (s : AppState) (v : Nat),
        cacheLookup s.qaCache k = none →
        w.fromChainType v k = .error msg →
        (runInitQAChain w s v k).1 = none
        ∧ (runInitQAChain w s v k).2.2
            = [Event.error ("Error initializing QA chain: " ++ msg)])
    ∧ (∀ (w : World) (c : Nat), w.chainInvoke q c = .error msg →
        (runGetAnswer w q c).1 = none
        ∧ (runGetAnswer w q c).2
            = [Event.error ("Error getting answer: " ++ msg)])
    ∧ (∀ w : World, w.fromExistingGraph k = .error msg →
        (runScript w initialState k q).events
          = [Event.titleDisplay, Event.introText, Event.apiKeyInput,
             Event.error ("Error initializing vector store: " ++ msg)])
    ∧ (∀ w : World, w.fromExistingGraph k = .ok () →
        w.fromChainType 0 k = .error msg →
        (runScript w initialState k q).events
          = [Event.titleDisplay, Event.introText, Event.apiKeyInput,
             Event.error ("Error initializing QA chain: " ++ msg)])
    ∧ (∀ w : World, w.fromExistingGraph k = .ok () →
        w.fromChainType 0 k = .ok () → w.chainInvoke q 1 = .error msg →
        (runScript w initialState k q).events
          = [Event.titleDisplay, Event.introText, Event.apiKeyInput,
             Event.questionInput, Event.exampleQuestions, Event.spinner,
             Event.error ("Error getting answer: " ++ msg),
             Event.footerRule]) := by
  refine ⟨?_, ?_, ?_, ?_, ?_, ?_⟩
  · intro w s hcl hw
    simp [runInitVectorStore, hcl, hw]
  · intro w s v hcl hw
    simp [runInitQAChain, hcl, hw]
  · intro w c hw
    simp [runGetAnswer, hw]
  · intro w hw
    simp [runScript, runInitVectorStore, cacheLookup, initialState,
      hk, hw]
  · intro w h1 h2
    simp [runScript, runInitVectorStore, runInitQAChain, cacheLookup,
      initialState, hk, h1, h2]
  · intro w h1 h2 h3
    simp [runScript, runInitVectorStore, runInitQAChain, runGetAnswer,
      cacheLookup, initialState, hk, hq, h1, h2, h3]

/-- C5 (witness): the three failure branches evaluated at concrete worlds
through the theorem. -/
theorem exceptions_caught_and_interaction_halts_witness :
    ((runScript wVsFail initialState "sk" "q1").events
      = [Event.titleDisplay, Event.introText, Event.apiKeyInput,
         Event.error ("Error initializing vector store: " ++ "boom")])
    ∧ ((runScript wQaFail initialState "sk" "q1").events
      = [Event.titleDisplay, Event.introText, Event.apiKeyInput,
         Event.error ("Error initializing QA chain: " ++ "boom")])
    ∧ ((runScript wAnsFail initialState "sk" "q1").events
      = [Event.titleDisplay, Event.introText, Event.apiKeyInput,
         Event.questionInput, Event.exampleQuestions, Event.spinner,
         Event.error ("Error getting answer: " ++ "boom"),
         Event.footerRule]) :=
  ⟨(exceptions_caught_and_interaction_halts "sk" "q1" "boom"
      (by decide) (by decide)).2.2.2.1 wVsFail rfl,
   (exceptions_caught_and_interaction_halts "sk" "q1" "boom"
      (by decide) (by decide)).2.2.2.2.1 wQaFail rfl rfl,
   (exceptions_caught_and_interaction_halts "sk" "q1" "boom"
      (by decide) (by decide)).2.2.2.2.2 wAnsFail rfl rfl rfl⟩

/-- C6: when `get_answer` raises, the interaction renders no answer
heading and no answer text (so no stale or partial answer is shown in
place of the prior display) and an error message is shown instead. -/
theorem get_answer_failure_renders_error_not_answer (w : World)
    (k q msg : String) (hk : k ≠ "") (hq : q ≠ "")
    (h1 : w.fromExistingGraph k = .ok ())
    (h2 : w.fromChainType 0 k = .ok ())
    (h3 : w.chainInvoke q 1 = .error msg) :
    ((runScript w initialState k q).events.any isAnswerEvent = false)
    ∧ Event.error ("Error getting answer: " ++ msg)
        ∈ (runScript w initialState k q).events := by
  have he : (runScript w initialState k q).events
      = [Event.titleDisplay, Event.introText, Event.apiKeyInput,
         Event.questionInput, Event.exampleQuestions, Event.spinner,
         Event.error ("Error getting answer: " ++ msg),
         Event.footerRule] := by
    simp [runScript, runInitVectorStore, runInitQAChain, runGetAnswer,
      cacheLookup, initialState, hk, hq, h1, h2, h3]
  rw [he]
  simp [isAnswerEvent]

/-- C6 (witness): the failure-rendering theorem at a concrete world. -/
theorem get_answer_failure_renders_error_not_answer_witness :
    ((runScript wAnsFail initialState "sk" "q1").events.any isAnswerEvent
        = false)
    ∧ Event.error ("Error getting answer: " ++ "boom")
        ∈ (runScript wAnsFail initialState "sk" "q1").events :=
  get_answer_failure_renders_error_not_answer wAnsFail "sk" "q1" "boom"
    (by decide) (by decide) rfl rfl rfl

/-- C7 (counterexample): two environments that differ only in
`NEO4J_DATABASE` produce identical `Neo4jVector.from_existing_graph`
argument records even though their configured database names differ: the
connection made by `initialize_vector_store` does not use the database
name (it is read on line 16 but never passed to the call on lines
32-41). -/
theorem database_not_in_connection_counterexample :
    fromExistingGraphArgs envA "sk" = fromExistingGraphArgs envB "sk"
    ∧ neo4jDatabaseConfig envA ≠ neo4jDatabaseConfig envB := by
  decide

/-- C7 (amended): the graph-database connection uses the URI, username and
password from process configuration (the arguments are determined by
those three values together with the API key and fixed constants), while
`NEO4J_DATABASE` — defaulting to `"neo4j"` when the environment variable
is absent — is read but not passed to the connection call. -/
theorem neo4j_connection_params (e1 e2 : Env) (k : String)
    (h1 : e1.neo4j_uri = e2.neo4j_uri)
    (h2 : e1.neo4j_username = e2.neo4j_username)
    (h3 : e1.neo4j_password = e2.neo4j_password) :
    fromExistingGraphArgs e1 k = fromExistingGraphArgs e2 k
    ∧ (fromExistingGraphArgs e1 k).url = e1.neo4j_uri
    ∧ (fromExistingGraphArgs e1 k).username = e1.neo4j_username
    ∧ (fromExistingGraphArgs e1 k).password = e1.neo4j_password
    ∧ (fromExistingGraphArgs e1 k).embedding.api_key = k
    ∧ (e1.neo4j_database = none → neo4jDatabaseConfig e1 = "neo4j") := by
  refine ⟨?_, rfl, rfl, rfl, rfl, ?_⟩
  · simp [fromExistingGraphArgs, h1, h2, h3]
  · intro h
    simp [neo4jDatabaseConfig, getenvOrDefault, h]

/-- C7 (witness): the amended theorem applied to concrete environments
that agree on URI, username and password but differ on the database
variable, with the default-name implication discharged. -/
theorem neo4j_connection_params_witness :
    fromExistingGraphArgs envNoDb "sk" = fromExistingGraphArgs envA "sk"
    ∧ neo4jDatabaseConfig envNoDb = "neo4j" :=
  ⟨(neo4j_connection_params envNoDb envA "sk" rfl rfl rfl).1,
   (neo4j_connection_params envNoDb envA "sk" rfl rfl rfl).2.2.2.2.2 rfl⟩

/-- C8 (counterexample): after entering key `"sk-abc"` and then editing
the field to the empty string, the stored session key is still
`"sk-abc"`, not the current (empty) field content: the assignment on line
91 only runs inside `if api_key:`. -/
theorem empty_edit_does_not_overwrite_counterexample :
    (runScript wOK ((runScript wOK initialState "sk-abc" "").state)
        "" "").state.openai_api_key = "sk-abc"
    ∧ (runScript wOK ((runScript wOK initialState "sk-abc" "").state)
        "" "").state.openai_api_key ≠ "" := by
  decide

/-- C8 (amended): the session-held API key is overwritten with the newly
entered field content exactly when that content is non-empty; when the
field is edited to the empty string the stored key retains its prior
value instead of being overwritten. -/
theorem session_key_overwritten_iff_nonempty (w : World) (s : AppState)
    (k q : String) :
    (k ≠ "" → (runScript w s k q).state.openai_api_key = k)
    ∧ (k = "" → (runScript w s k q).state.openai_api_key
        = s.openai_api_key) := by
  constructor
  · intro hk
    simp only [runScript]
    rw [if_neg hk]
    cases hv : (runInitVectorStore w { s with openai_api_key := k } k).1
      with
    | none =>
        simp [hv, runInitVectorStore_openai_api_key]
    | some v =>
      cases hqv : (runInitQAChain w
          (runInitVectorStore w { s with openai_api_key := k } k).2.1
          v k).1 with
      | none =>
          simp [hv, hqv, runInitQAChain_openai_api_key,
            runInitVectorStore_openai_api_key]
      | some c =>
        by_cases hq : q = ""
        · simp [hv, hqv, hq, runInitQAChain_openai_api_key,
            runInitVectorStore_openai_api_key]
        · simp [hv, hqv, if_neg hq, runInitQAChain_openai_api_key,
            runInitVectorStore_openai_api_key]
  · intro hk
    subst hk
    simp [runScript]

/-- C8 (witness): the amended update rule at concrete inputs. -/
theorem session_key_overwritten_iff_nonempty_witness :
    (runScript wOK initialState "sk" "").state.openai_api_key = "sk" :=
  (session_key_overwritten_iff_nonempty wOK initialState "sk" "").1
    (by decide)

/-- C9: with both handles initialized successfully and `get_answer`
returning a non-empty string without raising, the interaction renders the
page chrome, the question input, then the `Answer:` heading immediately
followed by exactly that answer string word-wrapped to width 80, and no
error message is surfaced. -/
theorem successful_answer_rendered (w : World) (k q a : String)
    (hk : k ≠ "") (hq : q ≠ "") (ha : a ≠ "")
    (h1 : w.fromExistingGraph k = .ok ())
    (h2 : w.fromChainType 0 k = .ok ())
    (h3 : w.chainInvoke q 1 = .ok a) :
    (runScript w initialState k q).events
      = [Event.titleDisplay, Event.introText, Event.apiKeyInput,
         Event.questionInput, Event.exampleQuestions, Event.spinner,
         Event.answerHeading, Event.answerWrapped a 80, Event.footerRule]
    ∧ (runScript w initialState k q).events.any isErrorEvent = false := by
  have he : (runScript w initialState k q).events
      = [Event.titleDisplay, Event.introText, Event.apiKeyInput,
         Event.questionInput, Event.exampleQuestions, Event.spinner,
         Event.answerHeading, Event.answerWrapped a 80,
         Event.footerRule] := by
    simp [runScript, runInitVectorStore, runInitQAChain, runGetAnswer,
      cacheLookup, initialState, hk, hq, ha, h1, h2, h3]
  refine ⟨he, ?_⟩
  rw [he]
  simp [isErrorEvent]

/-- C9 (witness): the success rendering at a concrete world, key,
question and answer. -/
theorem successful_answer_rendered_witness :
    (runScript wOK initialState "sk" "q1").events
      = [Event.titleDisplay, Event.introText, Event.apiKeyInput,
         Event.questionInput, Event.exampleQuestions, Event.spinner,
         Event.answerHeading, Event.answerWrapped "An answer." 80,
         Event.footerRule]
    ∧ (runScript wOK initialState "sk" "q1").events.any isErrorEvent
        = false :=
  successful_answer_rendered wOK "sk" "q1" "An answer."
    (by decide) (by decide) (by decide) rfl rfl rfl

/-- C10: when `get_answer` succeeds but returns the empty string, the
interaction renders neither the `Answer:` heading nor any answer text nor
any error message — the `if answer:` guard on line 120 tests Python
truthiness, so the empty-answer success is indistinguishable from no
output. -/
theorem empty_answer_renders_nothing (w : World) (k q : String)
    (hk : k ≠ "") (hq : q ≠ "")
    (h1 : w.fromExistingGraph k = .ok ())
    (h2 : w.fromChainType 0 k = .ok ())
    (h3 : w.chainInvoke q 1 = .ok "") :
    (runScript w initialState k q).events
      = [Event.titleDisplay, Event.introText, Event.apiKeyInput,
         Event.questionInput, Event.exampleQuestions, Event.spinner,
         Event.footerRule]
    ∧ (runScript w initialState k q).events.any isAnswerEvent = false
    ∧ (runScript w initialState k q).events.any isErrorEvent = false := by
  have he : (runScript w initialState k q).events
      = [Event.titleDisplay, Event.introText, Event.apiKeyInput,
         Event.questionInput, Event.exampleQuestions, Event.spinner,
         Event.footerRule] := by
    simp [runScript, runInitVectorStore, runInitQAChain, runGetAnswer,
      cacheLookup, initialState, hk, hq, h1, h2, h3]
  refine ⟨he, ?_, ?_⟩ <;> rw [he] <;> decide

/-- C10 (witness): the empty-answer rendering at a concrete world. -/
theorem empty_answer_renders_nothing_witness :
    (runScript wEmptyAns initialState "sk" "q1").events
      = [Event.titleDisplay, Event.introText, Event.apiKeyInput,
         Event.questionInput, Event.exampleQuestions, Event.spinner,
         Event.footerRule]
    ∧ (runScript wEmptyAns initialState "sk" "q1").events.any
        isAnswerEvent = false
    ∧ (runScript wEmptyAns initialState "sk" "q1").events.any
        isErrorEvent = false :=
  empty_answer_renders_nothing wEmptyAns "sk" "q1"
    (by decide) (by decide) rfl rfl rfl

end FinGraphRAG
